import Mathlib

/-
Shallow embedding of the Quote-wise-AI pricing core:
  * src/pricing_engine.py        (PricingRulesEngine)
  * src/tools/risk_assessment_tool.py  (RiskAssessmentTool._run)
  * src/tools/price_calculating_tool.py (PricingCalculatorTool._run)

Modelling conventions:
  * A Python dict value is modelled per key as `Option (Option α)`:
    `none` = the key is absent, `some none` = the key is present with value
    `None`, `some (some v)` = the key is present with value `v`.
  * Python floats are idealised as exact rationals (ℚ); `round(x, 2)` is
    modelled as round-half-to-even at two decimal places, which is Python's
    rounding mode.  All concrete inputs used below are far from binary
    representation ties, so the idealisation agrees with CPython.
  * A raised exception is modelled as `Except.error` with a message tag.
-/

/-- Python `dict.get(key, default)`: returns the default when the key is
absent, and the stored value (which may itself be `None`) when present. -/
def pyGet {α : Type} (field : Option (Option α)) (dflt : α) : Option α :=
  match field with
  | none => some dflt
  | some v => v

/-- Python `dict.get(key)` with no default: `None` both when the key is
absent and when it is stored as null. -/
def pyGetN {α : Type} (field : Option (Option α)) : Option α :=
  match field with
  | none => none
  | some v => v

/-- Python `str(x)` for an optional string: `None` prints as `"None"`. -/
def pyStr (o : Option String) : String :=
  match o with
  | none => "None"
  | some s => s

/-- Round-half-to-even to the nearest integer (Python `round` on a value
exactly representable as the given rational). -/
def roundHalfEven (q : ℚ) : ℤ :=
  let f : ℤ := ⌊q⌋
  let frac : ℚ := q - f
  if frac < 1/2 then f
  else if 1/2 < frac then f + 1
  else if f % 2 = 0 then f else f + 1

/-- Python `round(x, 2)`. -/
def round2 (q : ℚ) : ℚ := (roundHalfEven (q * 100) : ℚ) / 100

/-- Python `pat in s` for strings: substring containment. -/
def containsSub (s pat : String) : Bool := decide (pat.data <:+: s.data)

/-- A single-quote character as a string (ASCII 39). -/
def quoteCh : String := String.singleton (Char.ofNat 39)

/-- The product record handed to `PricingRulesEngine.__init__` — the dict
keys the engine reads, each with absent/null/value distinguished. -/
structure Product where
  Product_Name : Option (Option String) := none
  Quantity_in_Stock : Option (Option Int) := none
  Stock_Status : Option (Option String) := none
  Min_Selling_Price_Rs : Option (Option ℚ) := none
  Reorder_Level : Option (Option Int) := none
  Factor_1 : Option (Option String) := none
  Factor_2 : Option (Option String) := none
  Factor_3 : Option (Option String) := none
  Category : Option (Option String) := none
  SmartBuy : Option (Option ℚ) := none
  ClicKart : Option (Option ℚ) := none
  ShopiSky : Option (Option ℚ) := none
  Neesho : Option (Option ℚ) := none
deriving DecidableEq

/-- One entry of `self.adjustments`: the dict
`{"type": ..., "value": ..., "reason": ...}`. -/
structure Adjustment where
  type : String
  value : ℚ
  reason : String
deriving DecidableEq

/-- The mutable state of a `PricingRulesEngine` instance. -/
structure Engine where
  product : Product
  quantity : Int
  base_price : ℚ
  adjustments : List Adjustment
  final_price : ℚ
deriving DecidableEq

/-- `PricingRulesEngine.__init__`: evaluates
`float(product.get('Min_Selling_Price_Rs', 0))`, which raises `TypeError`
when the key is present with value `None`. -/
def mkEngine (product : Product) (quantity : Int) : Except String Engine :=
  match pyGet product.Min_Selling_Price_Rs 0 with
  | none => .error "TypeError: float() argument cannot be None"
  | some bp =>
      .ok { product := product, quantity := quantity, base_price := bp,
            adjustments := [], final_price := bp }

def SEASONAL_SUMMER_CATEGORIES : List String :=
  ["Toys & Games", "Sports & Outdoors", "Fashion & Apparel"]

def inventoryReason (stock : Int) : String :=
  "High Inventory Discount: Stock level (" ++ toString stock ++
    ") is high compared to reorder point."

def overrideReason : String :=
  "Price Strategy Override: Item" ++ quoteCh ++
    "s price is driven by perceived value, not inventory levels."

def bulkReason (q : Int) : String :=
  "Bulk Order Discount: For ordering " ++ toString q ++ " units (25+)."

def seasonReason (cat : String) : String :=
  "In-Season Demand Markup: " ++ quoteCh ++ cat ++ quoteCh ++
    " is a popular summer category."

def demographicReason : String :=
  "Targeted Product Premium: Price adjusted for specific demographic appeal."

/-- `min((stock / (2 * reorder_level)) * 0.05, 0.20) * 100`, the
percentage appended by `_apply_inventory_rules` when it fires. -/
def invDiscountPct (stock reorder : Int) : ℚ :=
  min (((stock : ℚ) / (2 * (reorder : ℚ))) * (5/100)) (20/100) * 100

/-- `PricingRulesEngine._apply_inventory_rules`.  `stock` defaults to 0,
`reorder_level` defaults to 1; the guard `if reorder_level and ...` skips
the rule when `reorder_level` is `None` or `0`.  (A `None` stock would make
the Python comparison raise, but the pipeline only runs this after the
pre-flight check has ensured the stock field is present and non-null; the
fallback branch below is unreachable in the pipeline.) -/
def Engine.applyInventoryRules (e : Engine) : Engine :=
  let stockO := pyGet e.product.Quantity_in_Stock 0
  let reorderO := pyGet e.product.Reorder_Level 1
  match reorderO with
  | none => e
  | some r =>
      if r = 0 then e
      else
        match stockO with
        | none => e
        | some stock =>
            if 2 * r < stock then
              { e with adjustments := e.adjustments ++
                  [{ type := "discount", value := invDiscountPct stock r,
                     reason := inventoryReason stock }] }
            else e

/-- `PricingRulesEngine._apply_order_value_rules`. -/
def Engine.applyOrderValueRules (e : Engine) : Engine :=
  if 25 ≤ e.quantity then
    { e with adjustments := e.adjustments ++
        [{ type := "discount", value := 15/2, reason := bulkReason e.quantity }] }
  else e

/-- Python `str.strip()`: drop whitespace from both ends. -/
def pyStrip (s : String) : String :=
  ⟨((s.data.dropWhile Char.isWhitespace).reverse.dropWhile
      Char.isWhitespace).reverse⟩

/-- One factor slot: `str(product.get('Factor_i', '')).strip()`. -/
def factorOf (f : Option (Option String)) : String :=
  pyStrip (pyStr (pyGet f ""))

/-- Python `x in l` for an optional string against a string list:
`None in l` is `False`. -/
def pyInListStr (x : Option String) (l : List String) : Bool :=
  match x with
  | some c => decide (c ∈ l)
  | none => false

/-- The override mapped over each recorded adjustment when
`'Purchasing Power'` is among the factors. -/
def overrideAdj (adj : Adjustment) : Adjustment :=
  if containsSub adj.reason "High Inventory Discount" then
    { adj with value := 0, reason := overrideReason }
  else adj

/-- `PricingRulesEngine._apply_factor_based_rules`, with the evaluation
month (`datetime.now().month`) passed in explicitly. -/
def Engine.applyFactorBasedRules (e : Engine) (month : Nat) : Engine :=
  let factors := [factorOf e.product.Factor_1, factorOf e.product.Factor_2,
                  factorOf e.product.Factor_3]
  let e1 :=
    if "Weather & Seasons" ∈ factors then
      let cat := pyGet e.product.Category ""
      if month ∈ [5, 6, 7, 8] ∧ pyInListStr cat SEASONAL_SUMMER_CATEGORIES then
        { e with adjustments := e.adjustments ++
            [{ type := "markup", value := 10,
               reason := seasonReason (cat.getD "") }] }
      else e
    else e
  let e2 :=
    if "Age" ∈ factors ∨ "Gender" ∈ factors then
      { e1 with adjustments := e1.adjustments ++
          [{ type := "markup", value := 3, reason := demographicReason }] }
    else e1
  if "Purchasing Power" ∈ factors then
    { e2 with adjustments := e2.adjustments.map overrideAdj }
  else e2

/-- The pre-flight missing-key scan of `calculate_price`: a required key is
missing when it is absent from the dict or present with value `None`. -/
def missingKeys (p : Product) : List String :=
  (if (pyGetN p.Product_Name).isNone then ["Product_Name"] else []) ++
  (if (pyGetN p.Quantity_in_Stock).isNone then ["Quantity_in_Stock"] else []) ++
  (if (pyGetN p.Stock_Status).isNone then ["Stock_Status"] else []) ++
  (if (pyGetN p.Min_Selling_Price_Rs).isNone then ["Min_Selling_Price_Rs"] else [])

/-- The accumulation loop over `self.adjustments` computing
`total_adjustment_percentage`. -/
def netAdjustment (adjs : List Adjustment) : ℚ :=
  adjs.foldl
    (fun acc adj =>
      if adj.type = "discount" then acc - adj.value
      else if adj.type = "markup" then acc + adj.value
      else acc) 0

/-- The rule pipeline of `calculate_price` step 2: inventory rules, then
order-value rules, then factor-based rules. -/
def pipeline (e : Engine) (month : Nat) : Engine :=
  ((e.applyInventoryRules).applyOrderValueRules).applyFactorBasedRules month

/-- The dict returned by `calculate_price`; keys that a given return path
does not populate are `none`. -/
structure PriceResult where
  product_name : Option String := none
  quantity_requested : Option Int := none
  approved_for_quote : Bool := false
  status : String := ""
  base_single_unit_price : Option ℚ := none
  final_single_unit_price : Option ℚ := none
  total_price : Option ℚ := none
  net_price_adjustment_percentage : Option ℚ := none
  reasoning_breakdown : Option (List String) := none
  competitors : Option (List (String × Option ℚ)) := none
deriving DecidableEq

/-- `PricingRulesEngine.calculate_price`, returning the post-call engine
state together with the result dict. -/
def Engine.calculatePrice (e : Engine) (month : Nat) : Engine × PriceResult :=
  let missing := missingKeys e.product
  if missing ≠ [] then
    (e, { product_name := pyGet e.product.Product_Name "Unknown",
          approved_for_quote := false,
          status := "Product data incomplete. Missing required fields: " ++
            String.intercalate ", " missing })
  else
    match pyGetN e.product.Stock_Status, pyGetN e.product.Quantity_in_Stock with
    | some stock_status, some stock_quantity =>
        if stock_status = "Out of Stock" ∨ stock_quantity < e.quantity then
          (e, { product_name := pyGetN e.product.Product_Name,
                quantity_requested := some e.quantity,
                approved_for_quote := false,
                status :=
                  if stock_status = "Out of Stock" then "Product is out of stock."
                  else "Insufficient stock. Requested: " ++ toString e.quantity ++
                    ", Available: " ++ toString stock_quantity ++ "." })
        else
          let e1 := pipeline e month
          let pct := netAdjustment e1.adjustments
          let finalUnit := e.base_price * (1 + pct / 100)
          let total := finalUnit * e.quantity
          (e1, { product_name := pyGetN e.product.Product_Name,
                 quantity_requested := some e.quantity,
                 approved_for_quote := true,
                 status := "Available",
                 base_single_unit_price := some (round2 e.base_price),
                 final_single_unit_price := some (round2 finalUnit),
                 total_price := some (round2 total),
                 net_price_adjustment_percentage := some (round2 pct),
                 reasoning_breakdown := some
                   (((e1.adjustments.filter (fun a => a.value ≠ 0)).map
                     (fun a => a.reason))),
                 competitors := some
                   [("SmartBuy", pyGetN e.product.SmartBuy),
                    ("ClicKart", pyGetN e.product.ClicKart),
                    ("ShopiSky", pyGetN e.product.ShopiSky),
                    ("Neesho", pyGetN e.product.Neesho)] })
    | _, _ =>
        -- unreachable: `missingKeys e.product = []` forces both joins to be
        -- `some`; Python would have raised on a `None` comparison here.
        (e, { approved_for_quote := false, status := "unreachable" })

/-- One complete invocation as performed by callers:
`PricingRulesEngine(product, quantity).calculate_price()`. -/
def invoke (p : Product) (q : Int) (month : Nat) : Except String PriceResult :=
  match mkEngine p q with
  | .error msg => .error msg
  | .ok e => .ok (e.calculatePrice month).2

/-- The parsed JSON dict handed to `RiskAssessmentTool._run`, with the same
absent/null/value convention as `Product`. -/
structure RiskInput where
  approved_for_quote : Option (Option Bool) := none
  product_name : Option (Option String) := none
  status : Option (Option String) := none
  net_price_adjustment_percentage : Option (Option ℚ) := none
  reasoning_breakdown : Option (Option (List String)) := none
deriving DecidableEq

/-- The JSON object the risk tool serialises back; `reasons` is only
populated on the high-risk path. -/
structure RiskOutput where
  risk_level : String
  summary : String
  reasons : List String := []
deriving DecidableEq

def MAX_ALLOWED_DISCOUNT : ℚ := 25

/-- The over-threshold flag text.  Numeric interpolation uses ℚ printing
rather than CPython float `repr`; the claims only inspect which flags are
emitted, not their digit rendering. -/
def riskMagnitudeReason (name : Option String) (adjustment : ℚ) : String :=
  "Risk: Net discount for " ++ quoteCh ++ pyStr name ++ quoteCh ++ " is " ++
    toString |adjustment| ++ "%, which exceeds the maximum of " ++
    toString MAX_ALLOWED_DISCOUNT ++ "%."

def riskCappedReason (name : Option String) : String :=
  "Heads-up: A discount for " ++ quoteCh ++ pyStr name ++ quoteCh ++
    " was automatically capped."

/-- `RiskAssessmentTool._run` on an already-parsed dict.  A present-but-null
`reasoning_breakdown` would make the Python `for` loop raise, modelled as
`Except.error`. -/
def riskAssess (item : RiskInput) : Except String RiskOutput :=
  if ((pyGet item.approved_for_quote false).getD false) = false then
    .ok { risk_level := "Low",
          summary := "Item " ++ quoteCh ++
            pyStr (pyGet item.product_name "Unknown") ++ quoteCh ++
            " poses no pricing risk as it is not being quoted. Reason: " ++
            pyStr (pyGet item.status "Item not available for quoting.") }
  else
    let name := pyGetN item.product_name
    let flags1 :=
      match pyGet item.net_price_adjustment_percentage 0 with
      | none => []
      | some adjustment =>
          if adjustment < -MAX_ALLOWED_DISCOUNT then
            [riskMagnitudeReason name adjustment]
          else []
    match pyGet item.reasoning_breakdown [] with
    | none => .error "TypeError: NoneType object is not iterable"
    | some reasons =>
        let flags := flags1 ++ reasons.filterMap (fun r =>
          if containsSub r "Capped" then some (riskCappedReason name) else none)
        if flags = [] then
          .ok { risk_level := "Low",
                summary := "Item " ++ quoteCh ++ pyStr name ++ quoteCh ++
                  " passed all checks." }
        else
          .ok { risk_level := "High", summary := "High risk detected.",
                reasons := flags }

/-- One entry of the JSON array handed to `PricingCalculatorTool._run`. -/
structure LineItem where
  product_json : Option (Option Product) := none
  quantity : Option (Option Int) := none
deriving DecidableEq

/-- One entry of the tool's output array: either a pricing-result dict or a
per-entry `{"error": ...}` dict. -/
inductive BatchEntryResult where
  | result (r : PriceResult)
  | error (msg : String)
deriving DecidableEq

/-- A product dict with none of the modelled keys: the empty dict, which is
falsy in Python. -/
def emptyProduct : Product := {}

def skipMsg : String :=
  "Skipping item due to missing " ++ quoteCh ++ "product_json" ++ quoteCh ++
    " or " ++ quoteCh ++ "quantity" ++ quoteCh ++ "."

/-- The loop body of `PricingCalculatorTool._run`: skip the entry when
`product_json` is falsy (absent, null, or the empty dict) or `quantity` is
`None`; otherwise run the engine, turning any raised exception into a
per-entry error dict. -/
def processLineItem (item : LineItem) (month : Nat) : BatchEntryResult :=
  match pyGetN item.product_json, pyGetN item.quantity with
  | some p, some q =>
      if p = emptyProduct then .error skipMsg
      else
        match invoke p q month with
        | .ok r => .result r
        | .error msg =>
            .error ("Failed to process item " ++
              pyStr (pyGet p.Product_Name "Unknown") ++ ". Details: " ++ msg)
  | _, _ => .error skipMsg

/-- `PricingCalculatorTool._run` on an already-parsed JSON array: the
accumulating loop over the entries. -/
def runBatch (items : List LineItem) (month : Nat) : List BatchEntryResult :=
  items.foldl (fun all_results item => all_results ++ [processLineItem item month]) []

/- Concrete fixtures used by witnesses and counterexamples. -/

/-- Scenario 1 of the spec: complete record, stock 50, reorder level 10. -/
def scenario1Product : Product :=
  { Product_Name := some (some "Widget"),
    Quantity_in_Stock := some (some 50),
    Stock_Status := some (some "In Stock"),
    Min_Selling_Price_Rs := some (some 100),
    Reorder_Level := some (some 10) }

/-- A record whose `Min_Selling_Price_Rs` key is present with value null. -/
def nullPriceProduct : Product :=
  { Product_Name := some (some "Widget"),
    Quantity_in_Stock := some (some 10),
    Stock_Status := some (some "In Stock"),
    Min_Selling_Price_Rs := some none }

/-- Stock 7 against reorder level 3 gives the non-terminating decimal
discount 35/6 % used to separate the rounding orders. -/
def fractionalPctProduct : Product :=
  { Product_Name := some (some "Gadget"),
    Quantity_in_Stock := some (some 7),
    Stock_Status := some (some "In Stock"),
    Min_Selling_Price_Rs := some (some 100),
    Reorder_Level := some (some 3) }

/-- Purchasing-Power product with an inventory-discount-triggering stock
level. -/
def purchasingPowerProduct : Product :=
  { Product_Name := some (some "Premium"),
    Quantity_in_Stock := some (some 50),
    Stock_Status := some (some "In Stock"),
    Min_Selling_Price_Rs := some (some 100),
    Reorder_Level := some (some 10),
    Factor_1 := some (some "Purchasing Power") }

/-- A record that lacks the `Reorder_Level` key entirely. -/
def noReorderProduct : Product :=
  { Product_Name := some (some "Plain"),
    Quantity_in_Stock := some (some 10),
    Stock_Status := some (some "In Stock"),
    Min_Selling_Price_Rs := some (some 100) }

/-- The engine state `__init__` builds for scenario 1 with quantity 30. -/
def scenario1Engine : Engine :=
  { product := scenario1Product, quantity := 30, base_price := 100,
    adjustments := [], final_price := 100 }

/-- The result the engine returns for `fractionalPctProduct` at quantity 3:
discount 35/6 % rounds to 5.83, the unit price 565/6 rounds to 94.17, and
the full-precision total 282.5 rounds to itself. -/
def fractionalPctResult : PriceResult :=
  { product_name := some "Gadget", quantity_requested := some 3,
    approved_for_quote := true, status := "Available",
    base_single_unit_price := some 100,
    final_single_unit_price := some (9417/100),
    total_price := some (565/2),
    net_price_adjustment_percentage := some (-583/100),
    reasoning_breakdown := some [inventoryReason 7],
    competitors := some
      [("SmartBuy", none), ("ClicKart", none), ("ShopiSky", none),
       ("Neesho", none)] }

/-- The list the inventory rule appends, as an explicit function of the two
dict reads it performs (empty when the rule does not fire). -/
def invAdjList (stockO reorderO : Option Int) : List Adjustment :=
  match reorderO with
  | none => []
  | some r =>
      if r = 0 then []
      else
        match stockO with
        | none => []
        | some stock =>
            if 2 * r < stock then
              [{ type := "discount", value := invDiscountPct stock r,
                 reason := inventoryReason stock }]
            else []

/-- The list the bulk-order rule appends. -/
def bulkAdjList (q : Int) : List Adjustment :=
  if 25 ≤ q then [{ type := "discount", value := 15/2, reason := bulkReason q }]
  else []

/-- The list the seasonal rule appends. -/
def seasonAdjList (factors : List String) (catO : Option String)
    (month : Nat) : List Adjustment :=
  if "Weather & Seasons" ∈ factors then
    if month ∈ [5, 6, 7, 8] ∧ pyInListStr catO SEASONAL_SUMMER_CATEGORIES then
      [{ type := "markup", value := 10, reason := seasonReason (catO.getD "") }]
    else []
  else []

/-- The list the demographic rule appends. -/
def demoAdjList (factors : List String) : List Adjustment :=
  if "Age" ∈ factors ∨ "Gender" ∈ factors then
    [{ type := "markup", value := 3, reason := demographicReason }]
  else []

/-- The value-based-override pass over the recorded trail. -/
def overrideStep (factors : List String) (l : List Adjustment) :
    List Adjustment :=
  if "Purchasing Power" ∈ factors then l.map overrideAdj else l

/-- The three stripped factor strings the factor rules read. -/
def productFactors (P : Product) : List String :=
  [factorOf P.Factor_1, factorOf P.Factor_2, factorOf P.Factor_3]

/-- One trail entry of the accumulation loop, signed the way the loop adds
it to `total_adjustment_percentage`. -/
def signedVal (a : Adjustment) : ℚ :=
  if a.type = "discount" then -a.value
  else if a.type = "markup" then a.value else 0

/-- The engine state after the rule pipeline has run on scenario 1. -/
def scenario1PostEngine : Engine :=
  { scenario1Engine with adjustments :=
      [{ type := "discount", value := 25/2, reason := inventoryReason 50 },
       { type := "discount", value := 15/2, reason := bulkReason 30 }] }

/-- The result dict the engine returns for scenario 1 (quantity 30). -/
def scenario1Result : PriceResult :=
  { product_name := some "Widget", quantity_requested := some 30,
    approved_for_quote := true, status := "Available",
    base_single_unit_price := some 100,
    final_single_unit_price := some 80,
    total_price := some 2400,
    net_price_adjustment_percentage := some (-20),
    reasoning_breakdown := some [inventoryReason 50, bulkReason 30],
    competitors := some
      [("SmartBuy", none), ("ClicKart", none), ("ShopiSky", none),
       ("Neesho", none)] }

/-- An engine whose product has `Reorder_Level` present with value 0. -/
def zeroReorderEngine : Engine :=
  { product := { Reorder_Level := some (some 0) }, quantity := 1,
    base_price := 0, adjustments := [], final_price := 0 }

/-- An engine freshly built on `noReorderProduct` at quantity 1. -/
def noReorderEngine : Engine :=
  { product := noReorderProduct, quantity := 1, base_price := 100,
    adjustments := [], final_price := 100 }

/-- An approved risk-tool input with a 30% net discount. -/
def riskItemHigh : RiskInput :=
  { approved_for_quote := some (some true),
    product_name := some (some "Widget"),
    net_price_adjustment_percentage := some (some (-30)),
    reasoning_breakdown := some (some [inventoryReason 50]) }

/-- An approved risk-tool input sitting exactly on the −25 boundary. -/
def riskItemBoundary : RiskInput :=
  { approved_for_quote := some (some true),
    product_name := some (some "Widget"),
    net_price_adjustment_percentage := some (some (-25)),
    reasoning_breakdown := some (some []) }

/-- A batch entry with neither `product_json` nor `quantity`. -/
def missingEntryItem : LineItem := {}

/-- A well-formed batch entry wrapping scenario 1. -/
def scenario1LineItem : LineItem :=
  { product_json := some (some scenario1Product), quantity := some (some 30) }

/-
Theorems.
-/

/-- Claim C1 (code-bug exhibit): a product whose `Min_Selling_Price_Rs` key
is present with value null makes `PricingRulesEngine.__init__` evaluate
`float(None)` and raise `TypeError`, so `calculate_price` never returns the
promised "Product data incomplete" unapproved result for it — even though
the pre-flight scan would have flagged exactly that field. -/
theorem c1_null_min_price_raises :
    invoke nullPriceProduct 5 1 =
      .error "TypeError: float() argument cannot be None" ∧
    missingKeys nullPriceProduct = ["Min_Selling_Price_Rs"] := by
  exact ⟨rfl, rfl⟩


/-- The factor slot of an absent key strips to the empty string. -/
theorem factorOf_absent : factorOf none = "" := by decide

theorem missingKeys_nil_iff (p : Product) : missingKeys p = [] ↔
    (pyGetN p.Product_Name).isSome ∧ (pyGetN p.Quantity_in_Stock).isSome ∧
    (pyGetN p.Stock_Status).isSome ∧ (pyGetN p.Min_Selling_Price_Rs).isSome := by
  unfold missingKeys
  (repeat' split) <;> simp_all [Option.isSome_iff_ne_none]

theorem pyGet_eq_pyGetN_of_isSome {α : Type} (f : Option (Option α)) (d : α)
    (h : (pyGetN f).isSome) : pyGet f d = pyGetN f := by
  cases f <;> simp_all [pyGet, pyGetN]

theorem applyInventoryRules_product (e : Engine) :
    (e.applyInventoryRules).product = e.product := by
  unfold Engine.applyInventoryRules
  dsimp only
  (repeat' split) <;> rfl

theorem applyInventoryRules_quantity (e : Engine) :
    (e.applyInventoryRules).quantity = e.quantity := by
  unfold Engine.applyInventoryRules
  dsimp only
  (repeat' split) <;> rfl

theorem applyOrderValueRules_product (e : Engine) :
    (e.applyOrderValueRules).product = e.product := by
  unfold Engine.applyOrderValueRules
  split <;> rfl

theorem applyOrderValueRules_quantity (e : Engine) :
    (e.applyOrderValueRules).quantity = e.quantity := by
  unfold Engine.applyOrderValueRules
  split <;> rfl

theorem applyFactorBasedRules_product (e : Engine) (t : Nat) :
    (e.applyFactorBasedRules t).product = e.product := by
  unfold Engine.applyFactorBasedRules
  dsimp only
  (repeat' split) <;> rfl

theorem applyFactorBasedRules_quantity (e : Engine) (t : Nat) :
    (e.applyFactorBasedRules t).quantity = e.quantity := by
  unfold Engine.applyFactorBasedRules
  dsimp only
  (repeat' split) <;> rfl

theorem pipeline_product (e : Engine) (t : Nat) :
    (pipeline e t).product = e.product := by
  unfold pipeline
  rw [applyFactorBasedRules_product, applyOrderValueRules_product,
    applyInventoryRules_product]

theorem pipeline_quantity (e : Engine) (t : Nat) :
    (pipeline e t).quantity = e.quantity := by
  unfold pipeline
  rw [applyFactorBasedRules_quantity, applyOrderValueRules_quantity,
    applyInventoryRules_quantity]

theorem calculatePrice_fst_product (e : Engine) (t : Nat) :
    ((e.calculatePrice t).1).product = e.product := by
  unfold Engine.calculatePrice
  dsimp only
  (repeat' split) <;> simp [pipeline_product]

theorem calculatePrice_fst_quantity (e : Engine) (t : Nat) :
    ((e.calculatePrice t).1).quantity = e.quantity := by
  unfold Engine.calculatePrice
  dsimp only
  (repeat' split) <;> simp [pipeline_quantity]

theorem applyInventoryRules_eq (P : Product) (q : Int) (bp : ℚ)
    (l : List Adjustment) (fp : ℚ) :
    Engine.applyInventoryRules ⟨P, q, bp, l, fp⟩ =
      ⟨P, q, bp,
       l ++ invAdjList (pyGet P.Quantity_in_Stock 0) (pyGet P.Reorder_Level 1),
       fp⟩ := by
  unfold Engine.applyInventoryRules invAdjList
  dsimp only
  (repeat' split) <;> simp_all

theorem applyOrderValueRules_eq (P : Product) (q : Int) (bp : ℚ)
    (l : List Adjustment) (fp : ℚ) :
    Engine.applyOrderValueRules ⟨P, q, bp, l, fp⟩ =
      ⟨P, q, bp, l ++ bulkAdjList q, fp⟩ := by
  unfold Engine.applyOrderValueRules bulkAdjList
  dsimp only
  split <;> simp

theorem applyFactorBasedRules_eq (P : Product) (q : Int) (bp : ℚ)
    (l : List Adjustment) (fp : ℚ) (t : Nat) :
    Engine.applyFactorBasedRules ⟨P, q, bp, l, fp⟩ t =
      ⟨P, q, bp,
       overrideStep (productFactors P)
         ((l ++ seasonAdjList (productFactors P) (pyGet P.Category "") t) ++
           demoAdjList (productFactors P)),
       fp⟩ := by
  unfold Engine.applyFactorBasedRules overrideStep seasonAdjList demoAdjList
    productFactors
  dsimp only
  split_ifs <;> simp_all

theorem pipeline_eq (P : Product) (q : Int) (bp : ℚ) (l : List Adjustment)
    (fp : ℚ) (t : Nat) :
    pipeline ⟨P, q, bp, l, fp⟩ t =
      ⟨P, q, bp,
       overrideStep (productFactors P)
         ((((l ++
              invAdjList (pyGet P.Quantity_in_Stock 0)
                (pyGet P.Reorder_Level 1)) ++
             bulkAdjList q) ++
            seasonAdjList (productFactors P) (pyGet P.Category "") t) ++
          demoAdjList (productFactors P)),
       fp⟩ := by
  unfold pipeline
  rw [applyInventoryRules_eq, applyOrderValueRules_eq, applyFactorBasedRules_eq]

theorem calculatePrice_snd_reorder_irrel
    (pn : Option (Option String)) (qs : Option (Option Int))
    (ss : Option (Option String)) (ms : Option (Option ℚ))
    (rl rl2 : Option (Option Int)) (f1 f2 f3 cat : Option (Option String))
    (sb ck sh ne : Option (Option ℚ)) (q : Int) (bp : ℚ) (t : Nat)
    (hr : pyGet rl 1 = pyGet rl2 1) :
    (Engine.calculatePrice
      ⟨⟨pn, qs, ss, ms, rl, f1, f2, f3, cat, sb, ck, sh, ne⟩, q, bp, [], bp⟩ t).2 =
    (Engine.calculatePrice
      ⟨⟨pn, qs, ss, ms, rl2, f1, f2, f3, cat, sb, ck, sh, ne⟩, q, bp, [], bp⟩ t).2 := by
  have hmk : missingKeys ⟨pn, qs, ss, ms, rl2, f1, f2, f3, cat, sb, ck, sh, ne⟩ =
      missingKeys ⟨pn, qs, ss, ms, rl, f1, f2, f3, cat, sb, ck, sh, ne⟩ := rfl
  have hpf : productFactors ⟨pn, qs, ss, ms, rl2, f1, f2, f3, cat, sb, ck, sh, ne⟩ =
      productFactors ⟨pn, qs, ss, ms, rl, f1, f2, f3, cat, sb, ck, sh, ne⟩ := rfl
  unfold Engine.calculatePrice
  dsimp only
  rw [hmk]
  by_cases hmiss :
      missingKeys ⟨pn, qs, ss, ms, rl, f1, f2, f3, cat, sb, ck, sh, ne⟩ = []
  · simp only [hmiss, ne_eq, not_true_eq_false, if_false]
    cases hss : pyGetN ss with
    | none => simp only [hss]
    | some st =>
      cases hsq : pyGetN qs with
      | none => simp only [hss, hsq]
      | some sq =>
        simp only [hss, hsq]
        by_cases hav : st = "Out of Stock" ∨ sq < q
        · simp only [if_pos hav]
        · simp only [if_neg hav, pipeline_eq]
          simp only [hr, hpf]
  · simp only [hmiss, ne_eq, not_false_eq_true, if_true]

theorem head_append (a x : String) (c : Char) (ha : a.data.head? = some c) :
    (a ++ x).data.head? = some c := by
  rw [String.data_append]
  cases hd : a.data with
  | nil => rw [hd] at ha; cases ha
  | cons y tl => rw [hd] at ha; injection ha with ha; subst ha; rfl

theorem ne_of_head_ne (a b : String) (c d : Char)
    (ha : a.data.head? = some c) (hb : b.data.head? = some d) (hcd : c ≠ d) :
    a ≠ b := by
  intro h
  rw [h, hb] at ha
  injection ha with ha
  exact hcd ha.symm

theorem head_ne_elim {a : String} {c d : Char} (h1 : a.data.head? = some c)
    (h2 : a.data.head? = some d) (hcd : c ≠ d) : False := by
  rw [h1] at h2
  injection h2 with h2
  exact hcd h2

theorem inventoryReason_head (s : Int) :
    (inventoryReason s).data.head? = some 'H' := by
  unfold inventoryReason
  exact head_append _ _ _ (head_append _ _ _ rfl)

theorem bulkReason_head (q : Int) :
    (bulkReason q).data.head? = some 'B' := by
  unfold bulkReason
  exact head_append _ _ _ (head_append _ _ _ rfl)

theorem seasonReason_head (c : String) :
    (seasonReason c).data.head? = some 'I' := by
  unfold seasonReason
  exact head_append _ _ _ (head_append _ _ _ (head_append _ _ _ rfl))

theorem overrideReason_head : overrideReason.data.head? = some 'P' := by
  unfold overrideReason
  exact head_append _ _ _ rfl

theorem demographicReason_head : demographicReason.data.head? = some 'T' := rfl

/-- The inventory-discount reason always contains the marker substring the
override pass scans for. -/
theorem inventoryReason_contains (s : Int) :
    containsSub (inventoryReason s) "High Inventory Discount" = true := by
  unfold containsSub inventoryReason
  rw [decide_eq_true_eq]
  refine ⟨[], (": Stock level (".data ++ (toString s).data ++
    ") is high compared to reorder point.".data), ?_⟩
  rw [List.nil_append, String.data_append, String.data_append]
  have hsplit : "High Inventory Discount: Stock level (".data =
      "High Inventory Discount".data ++ ": Stock level (".data := rfl
  rw [hsplit]
  simp [List.append_assoc]

theorem netAdjustment_eq_sum (l : List Adjustment) :
    netAdjustment l = (l.map signedVal).sum := by
  unfold netAdjustment
  have aux : ∀ (l : List Adjustment) (init : ℚ),
      List.foldl (fun acc adj =>
        if adj.type = "discount" then acc - adj.value
        else if adj.type = "markup" then acc + adj.value
        else acc) init l = init + (l.map signedVal).sum := by
    intro l
    induction l with
    | nil => intro init; simp
    | cons x xs ih =>
        intro init
        simp only [List.foldl_cons, List.map_cons, List.sum_cons, ih]
        unfold signedVal
        split_ifs <;> ring
  simpa using aux l 0

theorem netAdjustment_filter_zero (l : List Adjustment) (P : Adjustment → Bool)
    (h : ∀ a ∈ l, P a = false → a.value = 0) :
    netAdjustment (l.filter P) = netAdjustment l := by
  rw [netAdjustment_eq_sum, netAdjustment_eq_sum]
  induction l with
  | nil => rfl
  | cons x xs ih =>
    have hxs : ∀ a ∈ xs, P a = false → a.value = 0 :=
      fun a ha => h a (List.mem_cons_of_mem _ ha)
    by_cases hP : P x = true
    · simp only [List.filter_cons, hP, if_true, List.map_cons, List.sum_cons]
      rw [ih hxs]
    · have hval : x.value = 0 := h x (List.mem_cons_self _ _)
        (Bool.not_eq_true _ ▸ (by simpa using hP))
      have hsv : signedVal x = 0 := by
        unfold signedVal; split_ifs <;> simp [hval]
      simp only [List.filter_cons, hP, if_false, List.map_cons, List.sum_cons,
        Bool.false_eq_true, ite_false, hsv, zero_add]
      rw [ih hxs]

/-- Claim C2 (counterexample): for the product with stock 7 and reorder
level 3 at quantity 3 the engine approves with rounded unit price 94.17 and
total price 282.50, but rounding the already-rounded unit price times the
quantity gives 282.51 — so `total_price = round(final_unit_price × qty, 2)`
read against the returned two-decimal `final_unit_price` is false. -/
theorem c2_rounding_counterexample :
    invoke fractionalPctProduct 3 1 = .ok fractionalPctResult ∧
    fractionalPctResult.approved_for_quote = true ∧
    fractionalPctResult.final_single_unit_price = some (9417/100) ∧
    fractionalPctResult.total_price = some (565/2) ∧
    round2 ((9417/100) * 3) = 28251/100 ∧
    (565/2 : ℚ) ≠ 28251/100 := by
  refine ⟨?_, rfl, rfl, rfl, ?_, by norm_num⟩
  · simp [invoke, mkEngine, pyGet, Engine.calculatePrice, missingKeys, pipeline,
      Engine.applyInventoryRules, Engine.applyOrderValueRules,
      Engine.applyFactorBasedRules, factorOf_absent, invDiscountPct,
      netAdjustment, round2, roundHalfEven, fractionalPctProduct,
      fractionalPctResult, inventoryReason, pyGetN]
    norm_num [Int.fract]
  · unfold round2 roundHalfEven
    norm_num [Int.fract]

/-- Claim C2 (amended): for every approved result, the returned net
percentage, unit price and total price are the two-decimal roundings of the
full-precision internal values — `net = round2 pct`,
`final_unit_price = round2 (base × (1 + pct/100))` and
`total_price = round2 (base × (1 + pct/100) × qty)` where `pct` is the
unrounded signed adjustment sum; rounding happens only at output. -/
theorem c2_rounded_at_output (p : Product) (q : Int) (t : Nat) (r : PriceResult)
    (h : invoke p q t = .ok r) (ha : r.approved_for_quote = true) :
    ∃ e, mkEngine p q = .ok e ∧
      r.net_price_adjustment_percentage =
        some (round2 (netAdjustment (pipeline e t).adjustments)) ∧
      r.final_single_unit_price =
        some (round2 (e.base_price *
          (1 + netAdjustment (pipeline e t).adjustments / 100))) ∧
      r.total_price =
        some (round2 (e.base_price *
          (1 + netAdjustment (pipeline e t).adjustments / 100) * q)) := by
  unfold invoke at h
  cases hm : mkEngine p q with
  | error m => rw [hm] at h; cases h
  | ok e =>
    rw [hm] at h
    injection h with h
    have hq : e.quantity = q := by
      unfold mkEngine at hm
      cases hbp : pyGet p.Min_Selling_Price_Rs 0 with
      | none => rw [hbp] at hm; cases hm
      | some bp => rw [hbp] at hm; injection hm with hm; rw [← hm]
    subst h
    refine ⟨e, rfl, ?_⟩
    rw [← hq]
    by_cases hmiss : missingKeys e.product = []
    · obtain ⟨-, h2, h3, -⟩ := (missingKeys_nil_iff e.product).mp hmiss
      obtain ⟨st, hss⟩ := Option.isSome_iff_exists.mp h3
      obtain ⟨sq, hsq⟩ := Option.isSome_iff_exists.mp h2
      by_cases hav : st = "Out of Stock" ∨ sq < e.quantity
      · exfalso
        unfold Engine.calculatePrice at ha
        rw [hss, hsq] at ha
        simp [hmiss, hav] at ha
      · unfold Engine.calculatePrice
        rw [hss, hsq]
        simp [hmiss, hav]
    · exfalso
      unfold Engine.calculatePrice at ha
      simp [hmiss] at ha

/-- Witness for the amended claim C2 at scenario 1. -/
theorem c2_rounded_at_output_witness :
    ∃ e, mkEngine scenario1Product 30 = .ok e ∧
      scenario1Result.net_price_adjustment_percentage =
        some (round2 (netAdjustment (pipeline e 1).adjustments)) ∧
      scenario1Result.final_single_unit_price =
        some (round2 (e.base_price *
          (1 + netAdjustment (pipeline e 1).adjustments / 100))) ∧
      scenario1Result.total_price =
        some (round2 (e.base_price *
          (1 + netAdjustment (pipeline e 1).adjustments / 100) * 30)) :=
  c2_rounded_at_output scenario1Product 30 1 scenario1Result
    (by
      simp [invoke, mkEngine, pyGet, Engine.calculatePrice, missingKeys,
        pipeline, Engine.applyInventoryRules, Engine.applyOrderValueRules,
        Engine.applyFactorBasedRules, factorOf_absent, invDiscountPct,
        netAdjustment, round2, roundHalfEven, scenario1Product,
        scenario1Result, inventoryReason, bulkReason, pyGetN]
      norm_num [Int.fract])
    rfl

/-- Claim C3: one invocation = fresh `__init__` + `calculate_price`.  The
run mutates only the engine instance it was given (its adjustment list);
re-initialising from the same product and quantity — read back from the
mutated instance — rebuilds the pristine engine and the second run returns
exactly the first run's result.  There is no other state. -/
theorem c3_no_hidden_state (p : Product) (q : Int) (t : Nat) (e0 e1 : Engine)
    (r1 : PriceResult) (h0 : mkEngine p q = .ok e0)
    (h1 : e0.calculatePrice t = (e1, r1)) :
    mkEngine e1.product e1.quantity = .ok e0 ∧
    (e0.calculatePrice t).2 = r1 := by
  have hp : e0.product = p ∧ e0.quantity = q := by
    unfold mkEngine at h0
    cases hbp : pyGet p.Min_Selling_Price_Rs 0 with
    | none => rw [hbp] at h0; cases h0
    | some bp => rw [hbp] at h0; injection h0 with h0; rw [← h0]; exact ⟨rfl, rfl⟩
  have he1 : e1 = (e0.calculatePrice t).1 := by rw [h1]
  have hprod : e1.product = p := by
    rw [he1, calculatePrice_fst_product, hp.1]
  have hquant : e1.quantity = q := by
    rw [he1, calculatePrice_fst_quantity, hp.2]
  refine ⟨?_, ?_⟩
  · rw [hprod, hquant]; exact h0
  · rw [h1]

/-- Witness for claim C3 at scenario 1. -/
theorem c3_no_hidden_state_witness :
    mkEngine scenario1PostEngine.product scenario1PostEngine.quantity =
      .ok scenario1Engine ∧
    (scenario1Engine.calculatePrice 1).2 = scenario1Result :=
  c3_no_hidden_state scenario1Product 30 1 scenario1Engine scenario1PostEngine
    scenario1Result rfl
    (by
      simp [Engine.calculatePrice, missingKeys, pipeline,
        Engine.applyInventoryRules, Engine.applyOrderValueRules,
        Engine.applyFactorBasedRules, factorOf_absent, invDiscountPct,
        netAdjustment, round2, roundHalfEven, scenario1Product,
        scenario1Engine, scenario1PostEngine, scenario1Result,
        inventoryReason, bulkReason, pyGet, pyGetN]
      norm_num [Int.fract])

/-- Claim C4: when the factors include "Purchasing Power" and the stock
level triggers the inventory discount, the approved calculation keeps the
inventory adjustment in the trail but neutralised — a discount record with
value 0 and the override reason remains in the trail, dropping it from the
net-percentage sum changes nothing, and neither the original inventory
reason nor the override reason appears in the emitted reasoning list. -/
theorem c4_override_law (p : Product) (q : Int) (t : Nat) (st : String)
    (s r : Int)
    (hpp : "Purchasing Power" ∈ productFactors p)
    (hrl : pyGet p.Reorder_Level 1 = some r) (hr0 : 0 < r)
    (hstk : pyGetN p.Quantity_in_Stock = some s) (h2r : 2 * r < s)
    (hmiss : missingKeys p = []) (hss : pyGetN p.Stock_Status = some st)
    (hso : st ≠ "Out of Stock") (hqs : ¬ s < q) :
    ∃ e res, mkEngine p q = .ok e ∧ invoke p q t = .ok res ∧
      res.approved_for_quote = true ∧
      res.reasoning_breakdown = some
        (((pipeline e t).adjustments.filter (fun a => a.value ≠ 0)).map
          (fun a => a.reason)) ∧
      ({ type := "discount", value := 0, reason := overrideReason } : Adjustment)
        ∈ (pipeline e t).adjustments ∧
      netAdjustment ((pipeline e t).adjustments.filter
        (fun a => a.reason ≠ overrideReason)) =
        netAdjustment (pipeline e t).adjustments ∧
      inventoryReason s ∉ ((pipeline e t).adjustments.filter
        (fun a => a.value ≠ 0)).map (fun a => a.reason) ∧
      overrideReason ∉ ((pipeline e t).adjustments.filter
        (fun a => a.value ≠ 0)).map (fun a => a.reason) := by
  obtain ⟨h1s, h2s, h3s, h4s⟩ := (missingKeys_nil_iff p).mp hmiss
  obtain ⟨bp, hbp⟩ := Option.isSome_iff_exists.mp h4s
  have hbp2 : pyGet p.Min_Selling_Price_Rs 0 = some bp := by
    rw [pyGet_eq_pyGetN_of_isSome _ _ h4s, hbp]
  have hm : mkEngine p q = .ok ⟨p, q, bp, [], bp⟩ := by
    unfold mkEngine; rw [hbp2]
  have hstk0 : pyGet p.Quantity_in_Stock 0 = some s := by
    rw [pyGet_eq_pyGetN_of_isSome _ _ h2s, hstk]
  have hr0n : ¬ r = 0 := by omega
  have htrail : (pipeline ⟨p, q, bp, [], bp⟩ t).adjustments =
      List.map overrideAdj
        ({ type := "discount", value := invDiscountPct s r,
           reason := inventoryReason s } ::
         (bulkAdjList q ++
          (seasonAdjList (productFactors p) (pyGet p.Category "") t ++
           demoAdjList (productFactors p)))) := by
    rw [pipeline_eq]
    dsimp only
    rw [hstk0, hrl]
    unfold invAdjList overrideStep
    simp [hr0n, h2r, hpp]
  have helems : ∀ x ∈ ((⟨"discount", invDiscountPct s r,
        inventoryReason s⟩ : Adjustment) ::
       (bulkAdjList q ++
        (seasonAdjList (productFactors p) (pyGet p.Category "") t ++
         demoAdjList (productFactors p)))),
      x = (⟨"discount", invDiscountPct s r, inventoryReason s⟩ : Adjustment) ∨
      x.reason.data.head? = some 'B' ∨ x.reason.data.head? = some 'I' ∨
      x.reason.data.head? = some 'T' := by
    intro x hx
    simp only [List.mem_cons, List.mem_append] at hx
    rcases hx with hx | hx | hx | hx
    · exact Or.inl hx
    · unfold bulkAdjList at hx
      split at hx
      · simp at hx; subst hx; exact Or.inr (Or.inl (bulkReason_head q))
      · simp at hx
    · unfold seasonAdjList at hx
      split at hx
      · split at hx
        · simp at hx; subst hx
          exact Or.inr (Or.inr (Or.inl (seasonReason_head _)))
        · simp at hx
      · simp at hx
    · unfold demoAdjList at hx
      split at hx
      · simp at hx; subst hx
        exact Or.inr (Or.inr (Or.inr demographicReason_head))
      · simp at hx
  have hmain : ∀ a ∈ (pipeline ⟨p, q, bp, [], bp⟩ t).adjustments,
      (a.reason = overrideReason → a.value = 0) ∧
      a.reason ≠ inventoryReason s := by
    intro a ha
    rw [htrail] at ha
    obtain ⟨x, hxmem, hxeq⟩ := List.mem_map.mp ha
    subst hxeq
    unfold overrideAdj
    by_cases hc : containsSub x.reason "High Inventory Discount" = true
    · rw [if_pos hc]
      exact ⟨fun _ => rfl,
        ne_of_head_ne _ _ 'P' 'H' overrideReason_head (inventoryReason_head s)
          (by decide)⟩
    · rw [if_neg hc]
      rcases helems x hxmem with hx | hx | hx | hx
      · exfalso
        rw [hx] at hc
        exact hc (inventoryReason_contains s)
      · exact ⟨fun he => (head_ne_elim (he ▸ hx) overrideReason_head
            (by decide)).elim,
          fun he => head_ne_elim (he ▸ hx) (inventoryReason_head s) (by decide)⟩
      · exact ⟨fun he => (head_ne_elim (he ▸ hx) overrideReason_head
            (by decide)).elim,
          fun he => head_ne_elim (he ▸ hx) (inventoryReason_head s) (by decide)⟩
      · exact ⟨fun he => (head_ne_elim (he ▸ hx) overrideReason_head
            (by decide)).elim,
          fun he => head_ne_elim (he ▸ hx) (inventoryReason_head s) (by decide)⟩
  refine ⟨⟨p, q, bp, [], bp⟩, (Engine.calculatePrice ⟨p, q, bp, [], bp⟩ t).2,
    hm, ?_, ?_, ?_, ?_, ?_, ?_, ?_⟩
  · unfold invoke; rw [hm]
  · unfold Engine.calculatePrice
    dsimp only
    rw [hss, hstk]
    simp [hmiss, hso, hqs]
  · unfold Engine.calculatePrice
    dsimp only
    rw [hss, hstk]
    simp [hmiss, hso, hqs]
  · rw [htrail]
    refine List.mem_map.mpr ⟨_, List.mem_cons_self _ _, ?_⟩
    unfold overrideAdj
    rw [if_pos (inventoryReason_contains s)]
  · apply netAdjustment_filter_zero
    intro a ha hfalse
    refine (hmain a ha).1 ?_
    simpa using hfalse
  · intro hmem
    simp only [List.mem_map, List.mem_filter] at hmem
    obtain ⟨a, ⟨hamem, -⟩, hareason⟩ := hmem
    exact (hmain a hamem).2 hareason
  · intro hmem
    simp only [List.mem_map, List.mem_filter] at hmem
    obtain ⟨a, ⟨hamem, haval⟩, hareason⟩ := hmem
    have hz := (hmain a hamem).1 hareason
    simp [hz] at haval

/-- Witness for claim C4 on the Purchasing-Power product. -/
theorem c4_override_law_witness :
    ∃ e res, mkEngine purchasingPowerProduct 5 = .ok e ∧
      invoke purchasingPowerProduct 5 1 = .ok res ∧
      res.approved_for_quote = true ∧
      res.reasoning_breakdown = some
        (((pipeline e 1).adjustments.filter (fun a => a.value ≠ 0)).map
          (fun a => a.reason)) ∧
      ({ type := "discount", value := 0, reason := overrideReason } : Adjustment)
        ∈ (pipeline e 1).adjustments ∧
      netAdjustment ((pipeline e 1).adjustments.filter
        (fun a => a.reason ≠ overrideReason)) =
        netAdjustment (pipeline e 1).adjustments ∧
      inventoryReason 50 ∉ ((pipeline e 1).adjustments.filter
        (fun a => a.value ≠ 0)).map (fun a => a.reason) ∧
      overrideReason ∉ ((pipeline e 1).adjustments.filter
        (fun a => a.value ≠ 0)).map (fun a => a.reason) :=
  c4_override_law purchasingPowerProduct 5 1 "In Stock" 50 10
    (by decide) rfl (by decide) rfl (by decide) rfl rfl (by decide) (by decide)

/-- Claim C5: for an approved priced line item (approval flag true, numeric
net percentage present, reasoning list read with its default), the risk
level is "High" exactly when the net percentage is strictly below −25 or
some reasoning line contains "Capped"; otherwise it is "Low"; and whenever
the −25 threshold is crossed the output carries the flag citing the
discount magnitude against the 25% ceiling. -/
theorem c5_risk_threshold (item : RiskInput) (a : ℚ) (rs : List String)
    (happ : pyGet item.approved_for_quote false = some true)
    (hnet : pyGet item.net_price_adjustment_percentage 0 = some a)
    (hrb : pyGet item.reasoning_breakdown [] = some rs) :
    ∃ out, riskAssess item = .ok out ∧
      (out.risk_level = "High" ↔
        a < -25 ∨ ∃ reasonStr ∈ rs, containsSub reasonStr "Capped" = true) ∧
      (out.risk_level = "Low" ↔
        ¬(a < -25 ∨ ∃ reasonStr ∈ rs, containsSub reasonStr "Capped" = true)) ∧
      (a < -25 →
        riskMagnitudeReason (pyGetN item.product_name) a ∈ out.reasons) := by
  unfold riskAssess
  rw [happ, hnet, hrb]
  dsimp only [Option.getD]
  simp only [MAX_ALLOWED_DISCOUNT]
  by_cases hlt : a < -25
  · simp only [if_pos hlt]
    refine ⟨_, by simp; rfl, ?_, ?_, ?_⟩
    · simp [hlt]
    · simp [hlt]
    · intro _; simp
  · simp only [if_neg hlt]
    by_cases hcap : ∃ reasonStr ∈ rs, containsSub reasonStr "Capped" = true
    · have hne : rs.filterMap (fun reasonStr =>
          if containsSub reasonStr "Capped" then
            some (riskCappedReason (pyGetN item.product_name))
          else none) ≠ [] := by
        obtain ⟨x, hx, hcx⟩ := hcap
        intro hnil
        have := List.filterMap_eq_nil.mp hnil x hx
        rw [hcx] at this
        simp at this
      simp only [List.nil_append, if_neg hne]
      refine ⟨_, by simp [hne]; rfl, ?_, ?_, ?_⟩
      · simp [hcap]
      · simp [hcap]
      · intro h; exact absurd h hlt
    · have hnil : rs.filterMap (fun reasonStr =>
          if containsSub reasonStr "Capped" then
            some (riskCappedReason (pyGetN item.product_name))
          else none) = [] := by
        rw [List.filterMap_eq_nil]
        intro x hx
        by_cases hcx : containsSub x "Capped" = true
        · exact absurd ⟨x, hx, hcx⟩ hcap
        · simp [hcx]
      simp only [List.nil_append, hnil]
      refine ⟨_, by simp; rfl, ?_, ?_, ?_⟩
      · simp [hlt, hcap]
      · simp [hlt, hcap]
      · intro h; exact absurd h hlt

/-- Witness for claim C5: a −30% item is High with the magnitude flag, and
a −25% item with no "Capped" line is Low. -/
theorem c5_risk_threshold_witness :
    (∃ out, riskAssess riskItemHigh = .ok out ∧
      (out.risk_level = "High" ↔
        (-30 : ℚ) < -25 ∨ ∃ reasonStr ∈ [inventoryReason 50],
          containsSub reasonStr "Capped" = true) ∧
      (out.risk_level = "Low" ↔
        ¬((-30 : ℚ) < -25 ∨ ∃ reasonStr ∈ [inventoryReason 50],
          containsSub reasonStr "Capped" = true)) ∧
      ((-30 : ℚ) < -25 →
        riskMagnitudeReason (pyGetN riskItemHigh.product_name) (-30) ∈
          out.reasons)) ∧
    (∃ out, riskAssess riskItemBoundary = .ok out ∧
      (out.risk_level = "High" ↔
        (-25 : ℚ) < -25 ∨ ∃ reasonStr ∈ ([] : List String),
          containsSub reasonStr "Capped" = true) ∧
      (out.risk_level = "Low" ↔
        ¬((-25 : ℚ) < -25 ∨ ∃ reasonStr ∈ ([] : List String),
          containsSub reasonStr "Capped" = true)) ∧
      ((-25 : ℚ) < -25 →
        riskMagnitudeReason (pyGetN riskItemBoundary.product_name) (-25) ∈
          out.reasons)) :=
  ⟨c5_risk_threshold riskItemHigh (-30) [inventoryReason 50] rfl rfl rfl,
   c5_risk_threshold riskItemBoundary (-25) [] rfl rfl rfl⟩

/-- Claim C6: for the scenario-1 input (min price 100, stock 50, reorder
level 10, in stock, no factors, quantity 30) and any evaluation month, the
engine approves with an inventory discount of 12.5, a bulk discount of 7.5,
net adjustment −20, final unit price 80.00 and total price 2400.00. -/
theorem c6_scenario1 (month : Nat) :
    mkEngine scenario1Product 30 = .ok scenario1Engine ∧
    (pipeline scenario1Engine month).adjustments.map Adjustment.value =
      [25/2, 15/2] ∧
    invoke scenario1Product 30 month = .ok scenario1Result := by
  refine ⟨rfl, ?_, ?_⟩
  · simp [scenario1Engine, scenario1Product, pipeline_eq, invAdjList,
      bulkAdjList, seasonAdjList, demoAdjList, overrideStep, productFactors,
      factorOf_absent, invDiscountPct, pyGet]
    norm_num
  · simp [invoke, mkEngine, pyGet, Engine.calculatePrice, missingKeys,
      pipeline, Engine.applyInventoryRules, Engine.applyOrderValueRules,
      Engine.applyFactorBasedRules, factorOf_absent, invDiscountPct,
      netAdjustment, round2, roundHalfEven, scenario1Product, scenario1Result,
      inventoryReason, bulkReason, pyGetN]
    norm_num [Int.fract]

/-- Claim C7: with the reorder level fixed and positive, the inventory
discount percentage is monotone in the stock quantity and never exceeds 20;
with a reorder level of 0 the rule leaves the engine untouched. -/
theorem c7_inventory_monotone_capped (r s1 s2 s3 : Int) (e : Engine)
    (hr : 0 < r) (h12 : s1 ≤ s2) (htrig : 2 * r < s1)
    (he : pyGet e.product.Reorder_Level 1 = some 0) :
    invDiscountPct s1 r ≤ invDiscountPct s2 r ∧
    invDiscountPct s3 r ≤ 20 ∧
    e.applyInventoryRules = e := by
  refine ⟨?_, ?_, ?_⟩
  · unfold invDiscountPct
    have h2r : (0 : ℚ) < 2 * (r : ℚ) := by positivity
    have hc : ((s1 : ℚ)) ≤ (s2 : ℚ) := by exact_mod_cast h12
    gcongr
  · unfold invDiscountPct
    have h := min_le_right (((s3 : ℚ) / (2 * (r : ℚ))) * (5/100)) (20/100)
    nlinarith
  · unfold Engine.applyInventoryRules
    dsimp only
    rw [he]
    simp

/-- Witness for claim C7. -/
theorem c7_inventory_monotone_capped_witness :
    invDiscountPct 25 10 ≤ invDiscountPct 40 10 ∧
    invDiscountPct 17 10 ≤ 20 ∧
    zeroReorderEngine.applyInventoryRules = zeroReorderEngine :=
  c7_inventory_monotone_capped 10 25 40 17 zeroReorderEngine (by decide)
    (by decide) (by decide) rfl

/-- Claim C8: the batch tool's loop yields exactly one output per entry in
input order — the loop equals an independent per-entry map — and an entry
whose `product_json` or `quantity` read comes back `None` produces the
per-entry skip-error object rather than aborting the batch. -/
theorem c8_batch_independent (items : List LineItem) (t : Nat)
    (item : LineItem)
    (h : pyGetN item.product_json = none ∨ pyGetN item.quantity = none) :
    runBatch items t = items.map (fun it => processLineItem it t) ∧
    (runBatch items t).length = items.length ∧
    processLineItem item t = .error skipMsg := by
  have hmap : ∀ (l : List LineItem) (acc : List BatchEntryResult),
      List.foldl (fun all_results it => all_results ++ [processLineItem it t])
        acc l = acc ++ l.map (fun it => processLineItem it t) := by
    intro l
    induction l with
    | nil => intro acc; simp
    | cons x xs ih => intro acc; simp [ih]
  refine ⟨?_, ?_, ?_⟩
  · unfold runBatch; rw [hmap]; simp
  · unfold runBatch; rw [hmap]; simp
  · unfold processLineItem
    rcases hp : pyGetN item.product_json with _ | pj
    · rfl
    · rcases hq : pyGetN item.quantity with _ | qv
      · rfl
      · exfalso
        rcases h with h | h
        · rw [hp] at h; cases h
        · rw [hq] at h; cases h

/-- Witness for claim C8 on a two-entry batch whose first entry is empty. -/
theorem c8_batch_independent_witness :
    runBatch [missingEntryItem, scenario1LineItem] 1 =
      [missingEntryItem, scenario1LineItem].map
        (fun it => processLineItem it 1) ∧
    (runBatch [missingEntryItem, scenario1LineItem] 1).length =
      ([missingEntryItem, scenario1LineItem] : List LineItem).length ∧
    processLineItem missingEntryItem 1 = .error skipMsg :=
  c8_batch_independent [missingEntryItem, scenario1LineItem] 1
    missingEntryItem (Or.inl rfl)

/-- Claim C9: a record without the `Reorder_Level` key prices exactly as if
the level were 1 — the whole calculation agrees with the explicit
`Reorder_Level = 1` record — and on such an engine the inventory rule fires
for every stock quantity above 2 with magnitude
`min((stock/2) × 5%, 20%) × 100`; absence is not the inapplicable 0 case. -/
theorem c9_absent_reorder_default (p : Product) (q : Int) (t : Nat) (s : Int)
    (e : Engine) (habs : p.Reorder_Level = none) (he : e.product = p)
    (hstk : pyGet p.Quantity_in_Stock 0 = some s) (h2 : 2 < s) :
    invoke p q t = invoke { p with Reorder_Level := some (some 1) } q t ∧
    (e.applyInventoryRules).adjustments = e.adjustments ++
      [{ type := "discount", value := invDiscountPct s 1,
         reason := inventoryReason s }] ∧
    invDiscountPct s 1 = min (((s : ℚ) / 2) * (5/100)) (20/100) * 100 := by
  obtain ⟨pn, qs, ss, ms, rl, f1, f2, f3, cat, sb, ck, sh, ne⟩ := p
  dsimp only at habs hstk he
  subst habs
  refine ⟨?_, ?_, ?_⟩
  · unfold invoke mkEngine
    dsimp only
    cases hms : pyGet ms 0 with
    | none => rfl
    | some bp =>
        exact congrArg Except.ok
          (calculatePrice_snd_reorder_irrel pn qs ss ms none (some (some 1))
            f1 f2 f3 cat sb ck sh ne q bp t rfl)
  · obtain ⟨P, eq, ebp, el, efp⟩ := e
    dsimp only at he
    subst he
    rw [applyInventoryRules_eq]
    dsimp only
    rw [hstk]
    unfold invAdjList
    have h1 : ((1 : Int) = 0) = False := by simp
    have hlt : ((2 : Int) * 1 < s) = True := by simp; omega
    simp [pyGet, h1, hlt]
    omega
  · unfold invDiscountPct
    norm_num

/-- Witness for claim C9 on the record lacking `Reorder_Level`. -/
theorem c9_absent_reorder_default_witness :
    invoke noReorderProduct 1 1 =
      invoke { noReorderProduct with Reorder_Level := some (some 1) } 1 1 ∧
    (noReorderEngine.applyInventoryRules).adjustments =
      noReorderEngine.adjustments ++
        [{ type := "discount", value := invDiscountPct 10 1,
           reason := inventoryReason 10 }] ∧
    invDiscountPct 10 1 = min ((((10 : Int) : ℚ) / 2) * (5/100)) (20/100) * 100 :=
  c9_absent_reorder_default noReorderProduct 1 1 10 noReorderEngine rfl rfl
    rfl (by decide)

/-- Claim C10: a product that passes the pre-flight and availability checks
is priced normally at quantity 0 or negative — the engine approves (status
"Available"), never errors or raises, and the total is the full-precision
unit price times the (zero or negative) quantity, rounded at output. -/
theorem c10_nonpositive_quantity (p : Product) (q : Int) (t : Nat)
    (st : String) (sq : Int) (hq : q ≤ 0) (hmiss : missingKeys p = [])
    (hss : pyGetN p.Stock_Status = some st) (hstO : st ≠ "Out of Stock")
    (hsq : pyGetN p.Quantity_in_Stock = some sq) (hqs : q ≤ sq) :
    ∃ e r, mkEngine p q = .ok e ∧ invoke p q t = .ok r ∧
      r.approved_for_quote = true ∧ r.status = "Available" ∧
      r.quantity_requested = some q ∧
      r.final_single_unit_price =
        some (round2 (e.base_price *
          (1 + netAdjustment (pipeline e t).adjustments / 100))) ∧
      r.total_price =
        some (round2 (e.base_price *
          (1 + netAdjustment (pipeline e t).adjustments / 100) * q)) := by
  obtain ⟨-, -, -, h4⟩ := (missingKeys_nil_iff p).mp hmiss
  obtain ⟨bp, hbp⟩ := Option.isSome_iff_exists.mp h4
  have hbp2 : pyGet p.Min_Selling_Price_Rs 0 = some bp := by
    rw [pyGet_eq_pyGetN_of_isSome _ _ h4, hbp]
  have hm : mkEngine p q = .ok ⟨p, q, bp, [], bp⟩ := by
    unfold mkEngine; rw [hbp2]
  have hnl : ¬ sq < q := not_lt.mpr hqs
  refine ⟨⟨p, q, bp, [], bp⟩, (Engine.calculatePrice ⟨p, q, bp, [], bp⟩ t).2,
    hm, ?_, ?_⟩
  · unfold invoke; rw [hm]
  · unfold Engine.calculatePrice
    dsimp only
    rw [hss, hsq]
    simp [hmiss, hstO, hnl]

/-- Witness for claim C10 at quantity −3 on scenario 1. -/
theorem c10_nonpositive_quantity_witness :
    ∃ e r, mkEngine scenario1Product (-3) = .ok e ∧
      invoke scenario1Product (-3) 1 = .ok r ∧
      r.approved_for_quote = true ∧ r.status = "Available" ∧
      r.quantity_requested = some (-3) ∧
      r.final_single_unit_price =
        some (round2 (e.base_price *
          (1 + netAdjustment (pipeline e 1).adjustments / 100))) ∧
      r.total_price =
        some (round2 (e.base_price *
          (1 + netAdjustment (pipeline e 1).adjustments / 100) * (-3))) :=
  c10_nonpositive_quantity scenario1Product (-3) 1 "In Stock" 50 (by decide)
    rfl rfl (by decide) rfl (by decide)
